import Mathlib

/-!
Shallow embedding of `src/book/_ext/pybtexapastyle/formatting/pybtex/style/formatting/__init__.py`.

The file defines `BaseStyle`, a bibliography-formatting style adapter:
construction resolves three strategy sub-plugins (name style, label style,
sorting style) through the host library's plugin lookup; `format_entries`
sorts entries, computes labels and dispatches each (label, entry) pair to
`format_entry`; `format_entry` builds a context and dispatches on the entry
type to either a template factory (`get_<type>_template`) or a format method
(`format_<type>`); `format_bibliography` resolves citation keys against the
bibliography-data container and wraps the formatted entries.

Python exceptions are embedded as `Except StyleError`; lazy generators are
materialised to `Except`-valued lists (observationally equivalent for these
entry points, cf. the eager list construction in `FormattedBibliography`).
Host-library collaborators that live outside this repository (the plugin
registry, the bibliography-data container) are modelled abstractly: the
container carries its key-to-entry association list, its preamble and its
`add_extra_citations` operation as data, and the plugin registry is a plain
association list with a category default.
-/

/-- A bibliographic record: a citation key, a `type` tag (article, book, ...)
and a mapping of field names to field values. -/
structure Entry where
  key : String
  type : String
  fields : List (String × String)
deriving Repr, DecidableEq

/-- The bibliography-data container of the host library, modelled abstractly:
an insertion-ordered association list from citation key to `Entry`, a preamble
string, and the host's `add_extra_citations` crossref-inclusion operation
carried as a function of the citation list and the `min_crossrefs` threshold. -/
structure BibData where
  entries : List (String × Entry)
  preamble : String
  add_extra_citations : List String → Nat → List String

/-- `bib_data.entries[key]` lookup, `none` standing for Python's `KeyError`. -/
def BibData.find (bd : BibData) (key : String) : Option Entry :=
  bd.entries.lookup key

/-- `list(bib_data.entries.keys())`: the citation keys in insertion order. -/
def BibData.keys (bd : BibData) : List String :=
  bd.entries.map Prod.fst

/-- A name-formatting strategy instance (category `pybtex.style.names`). -/
structure NameStyle where
  format : String → Bool → String

/-- A label-formatting strategy instance (category `pybtex.style.labels`). -/
structure LabelStyle where
  format_labels : List Entry → List String

/-- A sorting strategy instance (category `pybtex.style.sorting`). -/
structure SortingStyle where
  sort : List Entry → List Entry

/-- The error taxonomy of the adapter: `pluginNotFound` for an unknown style
identifier at construction, `unsupportedEntryType` for an entry type with
neither template factory nor format method, `keyError` for a citation key
absent from the bibliography-data container. -/
inductive StyleError where
  | pluginNotFound : String → StyleError
  | unsupportedEntryType : String → StyleError
  | keyError : String → StyleError
deriving Repr, DecidableEq

/-- The configuration part of the adapter set in `__init__` (lines 24-31):
the three resolved strategy instances plus the two scalar options. -/
structure StyleCore where
  name_style : NameStyle
  label_style : LabelStyle
  sorting_style : SortingStyle
  abbreviate_names : Bool
  min_crossrefs : Nat

/-- The context dictionary built by `format_entry` (lines 40-44): the entry,
the style (its configuration part) and the optional bibliography-data
container. -/
structure Context where
  entry : Entry
  style : StyleCore
  bib_data : Option BibData

/-- A template object as produced by a `get_<type>_template` factory; its
`format_data` renders the context to text. -/
structure Template where
  format_data : Context → String

/-- The adapter: the configuration plus the subclass's method table, i.e.
which entry types have a `get_<type>_template` attribute and which have a
`format_<type>` attribute (`getattr` presence modelled as `Option`). -/
structure BaseStyle extends StyleCore where
  get_template : String → Option (Entry → Template)
  format_method : String → Option (Context → String)

/-- The output record pairing a citation key, rendered text and label. -/
structure FormattedEntry where
  key : String
  text : String
  label : String
deriving Repr, DecidableEq

/-- The terminal output: the formatted entries, the style and the preamble. -/
structure FormattedBibliography where
  entries : List FormattedEntry
  style : BaseStyle
  preamble : String

/-- A plugin registry for one category, modelled from the spec: named
registered plugins plus the category's default plugin, which the host
resolves when no identifier is given. -/
structure Registry (α : Type) where
  plugins : List (String × α)
  dflt : α

/-- Modelled from the spec: the host library's plugin-lookup facility
(`pybtex.plugin.find_plugin`, not part of this repository). Given a category
registry and an optional identifier it returns the registered strategy
instance, resolves a missing identifier to the category default, and fails
with a `PluginNotFound`-kind error when the identifier has no registered
implementation. -/
def find_plugin {α : Type} (reg : Registry α) : Option String → Except StyleError α
  | none => Except.ok reg.dflt
  | some nm =>
    match reg.plugins.lookup nm with
    | some p => Except.ok p
    | none => Except.error (StyleError.pluginNotFound nm)

/-- Python truthiness of an optional string: `None` and `""` are falsy. -/
def pyTruthy : Option String → Bool
  | none => false
  | some s => !(s == "")

/-- Python's short-circuiting `a or b` on optional strings: `a` when truthy,
otherwise `b`. -/
def pyOr (a b : Option String) : Option String :=
  if pyTruthy a then a else b

/-- The three category registries the constructor draws from. -/
structure StyleRegistries where
  names : Registry NameStyle
  labels : Registry LabelStyle
  sorting : Registry SortingStyle

/-- The class attributes `default_name_style`, `default_label_style`,
`default_sorting_style` (all `None` on `BaseStyle` itself, overridden by
concrete style subclasses). -/
structure StyleDefaults where
  default_name_style : Option String
  default_label_style : Option String
  default_sorting_style : Option String

/-- `BaseStyle.__init__` (lines 23-31): resolves `name_style or default`,
`label_style or default`, `sorting_style or default` through `find_plugin`
(in that order, name first) and stores the configuration. `gt` and `fm` are
the subclass's `get_<type>_template` / `format_<type>` attribute tables. -/
def BaseStyle.init (regs : StyleRegistries) (dfl : StyleDefaults)
    (gt : String → Option (Entry → Template)) (fm : String → Option (Context → String))
    (label_style name_style sorting_style : Option String)
    (abbreviate_names : Bool) (min_crossrefs : Nat) : Except StyleError BaseStyle :=
  match find_plugin regs.names (pyOr name_style dfl.default_name_style) with
  | Except.error e => Except.error e
  | Except.ok ns =>
    match find_plugin regs.labels (pyOr label_style dfl.default_label_style) with
    | Except.error e => Except.error e
    | Except.ok ls =>
      match find_plugin regs.sorting (pyOr sorting_style dfl.default_sorting_style) with
      | Except.error e => Except.error e
      | Except.ok ss =>
        Except.ok ⟨⟨ns, ls, ss, abbreviate_names, min_crossrefs⟩, gt, fm⟩

/-- The bound method `self.sort = self.sorting_style.sort` (line 29). -/
def BaseStyle.sort (self : BaseStyle) : List Entry → List Entry :=
  self.sorting_style.sort

/-- The bound method `self.format_labels = self.label_style.format_labels`
(line 28). -/
def BaseStyle.format_labels (self : BaseStyle) : List Entry → List String :=
  self.label_style.format_labels

/-- The bound method `self.format_name = self.name_style.format` (line 27). -/
def BaseStyle.format_name (self : BaseStyle) : String → Bool → String :=
  self.name_style.format

/-- The context dictionary literal of `format_entry` (lines 40-44). -/
def BaseStyle.make_context (self : BaseStyle) (entry : Entry) (bib_data : Option BibData) :
    Context :=
  ⟨entry, self.toStyleCore, bib_data⟩

/-- `BaseStyle.format_entry` (lines 39-52): builds the context, tries the
`get_<type>_template` attribute; on `AttributeError` falls back to the
`format_<type>` attribute; when neither exists the failure (an attribute
error on the missing format method, the `UnsupportedEntryType`-kind error of
the spec's taxonomy) aborts the entry. -/
def BaseStyle.format_entry (self : BaseStyle) (label : String) (entry : Entry)
    (bib_data : Option BibData) : Except StyleError FormattedEntry :=
  let context := self.make_context entry bib_data
  match self.get_template entry.type with
  | some get_template =>
    Except.ok ⟨entry.key, (get_template entry).format_data context, label⟩
  | none =>
    match self.format_method entry.type with
    | some format_method =>
      Except.ok ⟨entry.key, format_method context, label⟩
    | none => Except.error (StyleError.unsupportedEntryType entry.type)

/-- Sequencing of a fallible map over a list, the embedding of Python's
eager list comprehension / exhausted generator over fallible element
computations: the first raised error aborts the whole list. -/
def mapExcept {α β ε : Type} (f : α → Except ε β) : List α → Except ε (List β)
  | [] => Except.ok []
  | x :: xs =>
    match f x with
    | Except.error e => Except.error e
    | Except.ok y =>
      match mapExcept f xs with
      | Except.error e => Except.error e
      | Except.ok ys => Except.ok (y :: ys)

/-- `BaseStyle.format_entries` (lines 33-37): sorts the entries, computes the
labels of the sorted sequence, and formats each `zip(labels, sorted_entries)`
pair (Python's `zip` truncates to the shorter sequence). -/
def BaseStyle.format_entries (self : BaseStyle) (entries : List Entry)
    (bib_data : Option BibData) : Except StyleError (List FormattedEntry) :=
  let sorted_entries := self.sort entries
  let labels := self.format_labels sorted_entries
  mapExcept (fun le => self.format_entry le.1 le.2 bib_data) (labels.zip sorted_entries)

/-- Lines 63-65 of `format_bibliography`: default omitted citations to all
keys of the container in insertion order, then extend with
`bib_data.add_extra_citations(citations, self.min_crossrefs)`. -/
def BaseStyle.cited_keys (self : BaseStyle) (bib_data : BibData)
    (citations : Option (List String)) : List String :=
  let citations0 :=
    match citations with
    | none => bib_data.keys
    | some cs => cs
  bib_data.add_extra_citations citations0 self.min_crossrefs

/-- Line 66 of `format_bibliography`: the eager list comprehension
`[bib_data.entries[key] for key in citations]`; a missing key raises the
`KeyError`-kind error. -/
def BaseStyle.resolve_entries (self : BaseStyle) (bib_data : BibData)
    (citations : Option (List String)) : Except StyleError (List Entry) :=
  mapExcept
    (fun key =>
      match bib_data.find key with
      | some e => Except.ok e
      | none => Except.error (StyleError.keyError key))
    (self.cited_keys bib_data citations)

/-- `BaseStyle.format_bibliography` (lines 54-69): resolve the citation keys,
format the resolved entries — note the call `self.format_entries(entries)` on
line 67 passes no `bib_data`, so the per-entry contexts carry `None` — and
wrap the result with the style and the container's preamble. -/
def BaseStyle.format_bibliography (self : BaseStyle) (bib_data : BibData)
    (citations : Option (List String)) : Except StyleError FormattedBibliography :=
  match self.resolve_entries bib_data citations with
  | Except.error e => Except.error e
  | Except.ok entries =>
    match self.format_entries entries none with
    | Except.error e => Except.error e
    | Except.ok formatted_entries =>
      Except.ok ⟨formatted_entries, self, bib_data.preamble⟩

/-- State-passing translation of `format_entry`: the body contains no
assignment to `self`, to the entry or to any attribute, so every branch
returns the adapter and the entry unchanged alongside the result. -/
def BaseStyle.format_entry_run (self : BaseStyle) (label : String) (entry : Entry)
    (bib_data : Option BibData) :
    Except StyleError FormattedEntry × BaseStyle × Entry :=
  let context := self.make_context entry bib_data
  match self.get_template entry.type with
  | some get_template =>
    (Except.ok ⟨entry.key, (get_template entry).format_data context, label⟩, self, entry)
  | none =>
    match self.format_method entry.type with
    | some format_method =>
      (Except.ok ⟨entry.key, format_method context, label⟩, self, entry)
    | none => (Except.error (StyleError.unsupportedEntryType entry.type), self, entry)

/-- State-passing translation of `format_entries`: the body only reads
`self` and `entries` (no assignment statements occur), so the adapter and the
input list come back unchanged alongside the result. -/
def BaseStyle.format_entries_run (self : BaseStyle) (entries : List Entry)
    (bib_data : Option BibData) :
    Except StyleError (List FormattedEntry) × BaseStyle × List Entry :=
  let sorted_entries := self.sort entries
  let labels := self.format_labels sorted_entries
  (mapExcept (fun le => self.format_entry le.1 le.2 bib_data) (labels.zip sorted_entries),
    self, entries)

/-! ### Helper lemmas about `mapExcept` and association-list lookup -/

theorem mapExcept_ok_length {α β ε : Type} {f : α → Except ε β} :
    ∀ {l : List α} {ys : List β}, mapExcept f l = Except.ok ys → ys.length = l.length := by
  intro l
  induction l with
  | nil =>
    intro ys h
    simp [mapExcept] at h
    simp [← h]
  | cons x xs ih =>
    intro ys h
    unfold mapExcept at h
    cases hfx : f x with
    | error e => rw [hfx] at h; simp at h
    | ok y =>
      rw [hfx] at h
      cases hrest : mapExcept f xs with
      | error e => rw [hrest] at h; simp at h
      | ok zs =>
        rw [hrest] at h
        simp at h
        subst h
        simp [ih hrest]

theorem mapExcept_ok_get {α β ε : Type} {f : α → Except ε β} :
    ∀ {l : List α} {ys : List β}, mapExcept f l = Except.ok ys →
      ∀ i (hi : i < l.length) (hi2 : i < ys.length),
        f (l.get ⟨i, hi⟩) = Except.ok (ys.get ⟨i, hi2⟩) := by
  intro l
  induction l with
  | nil =>
    intro ys h i hi hi2
    exact absurd hi (Nat.not_lt_zero i)
  | cons x xs ih =>
    intro ys h i hi hi2
    unfold mapExcept at h
    cases hfx : f x with
    | error e => rw [hfx] at h; simp at h
    | ok y =>
      rw [hfx] at h
      cases hrest : mapExcept f xs with
      | error e => rw [hrest] at h; simp at h
      | ok zs =>
        rw [hrest] at h
        simp at h
        subst h
        cases i with
        | zero => simpa using hfx
        | succ j =>
          have hj : j < xs.length := Nat.lt_of_succ_lt_succ hi
          have hj2 : j < zs.length := Nat.lt_of_succ_lt_succ hi2
          simpa using ih hrest j hj hj2

theorem mapExcept_ok_mem {α β ε : Type} {f : α → Except ε β} :
    ∀ {l : List α} {ys : List β}, mapExcept f l = Except.ok ys →
      ∀ y ∈ ys, ∃ x, x ∈ l ∧ f x = Except.ok y := by
  intro l
  induction l with
  | nil =>
    intro ys h y hy
    simp [mapExcept] at h
    subst h
    simp at hy
  | cons x xs ih =>
    intro ys h y hy
    unfold mapExcept at h
    cases hfx : f x with
    | error e => rw [hfx] at h; simp at h
    | ok y0 =>
      rw [hfx] at h
      cases hrest : mapExcept f xs with
      | error e => rw [hrest] at h; simp at h
      | ok zs =>
        rw [hrest] at h
        simp at h
        subst h
        rcases List.mem_cons.mp hy with hy0 | hymem
        · exact ⟨x, List.mem_cons_self x xs, hy0 ▸ hfx⟩
        · rcases ih hrest y hymem with ⟨x0, hx0, hfx0⟩
          exact ⟨x0, List.mem_cons_of_mem x hx0, hfx0⟩

theorem mapExcept_error_mem {α β ε : Type} {f : α → Except ε β} :
    ∀ {l : List α} {e : ε}, mapExcept f l = Except.error e →
      ∃ x, x ∈ l ∧ f x = Except.error e := by
  intro l
  induction l with
  | nil =>
    intro e h
    simp [mapExcept] at h
  | cons x xs ih =>
    intro e h
    unfold mapExcept at h
    cases hfx : f x with
    | error e0 =>
      rw [hfx] at h
      simp at h
      exact ⟨x, List.mem_cons_self x xs, h ▸ hfx⟩
    | ok y =>
      rw [hfx] at h
      cases hrest : mapExcept f xs with
      | error e0 =>
        rw [hrest] at h
        simp at h
        rcases ih (h ▸ hrest) with ⟨x0, hx0, hfx0⟩
        exact ⟨x0, List.mem_cons_of_mem x hx0, hfx0⟩
      | ok zs => rw [hrest] at h; simp at h

theorem mapExcept_total {α β ε : Type} {f : α → Except ε β} :
    ∀ {l : List α}, (∀ x ∈ l, ∃ y, f x = Except.ok y) →
      ∃ ys, mapExcept f l = Except.ok ys := by
  intro l
  induction l with
  | nil => intro _; exact ⟨[], rfl⟩
  | cons x xs ih =>
    intro h
    rcases h x (List.mem_cons_self x xs) with ⟨y, hy⟩
    rcases ih (fun z hz => h z (List.mem_cons_of_mem x hz)) with ⟨ys, hys⟩
    exact ⟨y :: ys, by simp [mapExcept, hy, hys]⟩

theorem mapExcept_ok_map_eq {α β γ ε : Type} {f : α → Except ε β} {g : β → γ} {hm : α → γ}
    (hfg : ∀ x y, f x = Except.ok y → g y = hm x) :
    ∀ {l : List α} {ys : List β}, mapExcept f l = Except.ok ys → ys.map g = l.map hm := by
  intro l
  induction l with
  | nil =>
    intro ys h
    simp [mapExcept] at h
    simp [← h]
  | cons x xs ih =>
    intro ys h
    unfold mapExcept at h
    cases hfx : f x with
    | error e => rw [hfx] at h; simp at h
    | ok y =>
      rw [hfx] at h
      cases hrest : mapExcept f xs with
      | error e => rw [hrest] at h; simp at h
      | ok zs =>
        rw [hrest] at h
        simp at h
        subst h
        simp [hfg x y hfx, ih hrest]

theorem lookup_mem {α β : Type} [BEq α] [LawfulBEq α] {l : List (α × β)} {k : α} {b : β}
    (h : l.lookup k = some b) : (k, b) ∈ l := by
  induction l with
  | nil => simp [List.lookup] at h
  | cons p tl ih =>
    rw [List.lookup] at h
    by_cases hk : k == p.1
    · rw [hk] at h
      simp at h
      have hkp : k = p.1 := eq_of_beq hk
      subst h
      have hpair : (k, p.2) = p := by rw [hkp]
      rw [hpair]
      exact List.mem_cons_self p tl
    · simp [hk] at h
      exact List.mem_cons_of_mem p (ih h)

/-! ### Derived lemmas about the adapter's operations -/

theorem format_entry_ok_fields {self : BaseStyle} {label : String} {entry : Entry}
    {bib_data : Option BibData} {fe : FormattedEntry}
    (h : self.format_entry label entry bib_data = Except.ok fe) :
    fe.key = entry.key ∧ fe.label = label := by
  unfold BaseStyle.format_entry at h
  cases hgt : self.get_template entry.type with
  | some gt =>
    rw [hgt] at h
    simp at h
    rw [← h]
    exact ⟨rfl, rfl⟩
  | none =>
    rw [hgt] at h
    cases hfm : self.format_method entry.type with
    | some fm =>
      rw [hfm] at h
      simp at h
      rw [← h]
      exact ⟨rfl, rfl⟩
    | none =>
      rw [hfm] at h
      simp at h

theorem format_entry_error_shape {self : BaseStyle} {label : String} {entry : Entry}
    {bib_data : Option BibData} {e : StyleError}
    (h : self.format_entry label entry bib_data = Except.error e) :
    e = StyleError.unsupportedEntryType entry.type := by
  unfold BaseStyle.format_entry at h
  cases hgt : self.get_template entry.type with
  | some gt =>
    rw [hgt] at h
    simp at h
  | none =>
    rw [hgt] at h
    cases hfm : self.format_method entry.type with
    | some fm =>
      rw [hfm] at h
      simp at h
    | none =>
      rw [hfm] at h
      simp at h
      exact h.symm

theorem format_entry_total {self : BaseStyle} {label : String} {entry : Entry}
    {bib_data : Option BibData}
    (h : (self.get_template entry.type).isSome ∨ (self.format_method entry.type).isSome) :
    ∃ fe, self.format_entry label entry bib_data = Except.ok fe := by
  unfold BaseStyle.format_entry
  cases hgt : self.get_template entry.type with
  | some gt => exact ⟨_, rfl⟩
  | none =>
    cases hfm : self.format_method entry.type with
    | some fm => exact ⟨_, rfl⟩
    | none =>
      rw [hgt, hfm] at h
      simp at h

theorem format_entries_unfold (self : BaseStyle) (entries : List Entry)
    (bib_data : Option BibData) :
    self.format_entries entries bib_data =
      mapExcept (fun le => self.format_entry le.1 le.2 bib_data)
        ((self.format_labels (self.sort entries)).zip (self.sort entries)) := rfl

theorem format_entries_ok_keys {self : BaseStyle} {entries : List Entry}
    {bib_data : Option BibData} {fes : List FormattedEntry}
    (hok : self.format_entries entries bib_data = Except.ok fes)
    (hlab : (self.format_labels (self.sort entries)).length = (self.sort entries).length) :
    fes.map FormattedEntry.key = (self.sort entries).map Entry.key := by
  rw [format_entries_unfold] at hok
  have h1 : fes.map FormattedEntry.key =
      ((self.format_labels (self.sort entries)).zip (self.sort entries)).map
        (fun le => le.2.key) :=
    mapExcept_ok_map_eq (fun x y hxy => (format_entry_ok_fields hxy).1) hok
  have h2 : ((self.format_labels (self.sort entries)).zip (self.sort entries)).map Prod.snd =
      self.sort entries :=
    List.map_snd_zip _ _ (le_of_eq hlab.symm)
  have h3 : ((self.format_labels (self.sort entries)).zip (self.sort entries)).map
        (fun le => le.2.key) =
      (((self.format_labels (self.sort entries)).zip (self.sort entries)).map Prod.snd).map
        Entry.key := by
    rw [List.map_map]
    rfl
  rw [h1, h3, h2]

theorem resolve_entries_ok_keys {self : BaseStyle} {bib_data : BibData}
    {citations : Option (List String)} {entries : List Entry}
    (hok : self.resolve_entries bib_data citations = Except.ok entries)
    (hcoh : ∀ p ∈ bib_data.entries, p.2.key = p.1) :
    entries.map Entry.key = self.cited_keys bib_data citations := by
  unfold BaseStyle.resolve_entries at hok
  have hfg : ∀ (k : String) (e : Entry),
      (match bib_data.find k with
        | some e => Except.ok e
        | none => Except.error (StyleError.keyError k)) = Except.ok e → e.key = id k := by
    intro k e h
    cases hfind : bib_data.find k with
    | none => rw [hfind] at h; simp at h
    | some e0 =>
      rw [hfind] at h
      simp at h
      subst h
      exact hcoh (k, e0) (lookup_mem hfind)
  have := mapExcept_ok_map_eq hfg hok
  simpa using this

theorem resolve_entries_error_shape {self : BaseStyle} {bib_data : BibData}
    {citations : Option (List String)} {e : StyleError}
    (h : self.resolve_entries bib_data citations = Except.error e) :
    ∃ k, k ∈ self.cited_keys bib_data citations ∧ bib_data.find k = none ∧
      e = StyleError.keyError k := by
  unfold BaseStyle.resolve_entries at h
  rcases mapExcept_error_mem h with ⟨k, hk, hfk⟩
  cases hfind : bib_data.find k with
  | some e0 => rw [hfind] at hfk; simp at hfk
  | none =>
    rw [hfind] at hfk
    simp at hfk
    exact ⟨k, hk, hfind, hfk.symm⟩

theorem resolve_entries_total {self : BaseStyle} {bib_data : BibData}
    {citations : Option (List String)}
    (h : ∀ k ∈ self.cited_keys bib_data citations, (bib_data.find k).isSome) :
    ∃ entries, self.resolve_entries bib_data citations = Except.ok entries := by
  unfold BaseStyle.resolve_entries
  apply mapExcept_total
  intro k hk
  cases hfind : bib_data.find k with
  | none =>
    exfalso
    have hks := h k hk
    rw [hfind] at hks
    simp at hks
  | some e0 => exact ⟨e0, rfl⟩

theorem format_bibliography_keys {self : BaseStyle} {bib_data : BibData}
    {citations : Option (List String)} {fb : FormattedBibliography}
    (hok : self.format_bibliography bib_data citations = Except.ok fb)
    (hcoh : ∀ p ∈ bib_data.entries, p.2.key = p.1)
    (hsort : ∀ l, List.Perm (self.sort l) l)
    (hlab : ∀ l, (self.format_labels l).length = l.length) :
    List.Perm (fb.entries.map FormattedEntry.key) (self.cited_keys bib_data citations) ∧
    ∃ entries, self.resolve_entries bib_data citations = Except.ok entries ∧
      fb.entries.map FormattedEntry.key = (self.sort entries).map Entry.key := by
  unfold BaseStyle.format_bibliography at hok
  split at hok
  next e heq => simp at hok
  next entries hres =>
    split at hok
    next e heq2 => simp at hok
    next fes hfe =>
      have hfb : fb.entries = fes := by
        injection hok with h2
        rw [← h2]
      have hkeys : fes.map FormattedEntry.key = (self.sort entries).map Entry.key :=
        format_entries_ok_keys hfe (hlab _)
      have hrkeys : entries.map Entry.key = self.cited_keys bib_data citations :=
        resolve_entries_ok_keys hres hcoh
      have hperm : List.Perm ((self.sort entries).map Entry.key) (entries.map Entry.key) :=
        List.Perm.map Entry.key (hsort entries)
      constructor
      · rw [hfb, hkeys, ← hrkeys]
        exact hperm
      · exact ⟨entries, hres, by rw [hfb, hkeys]⟩

/-! ### Concrete instances used to evaluate the theorems -/

/-- A concrete strategy bundle: identity sort, labels equal to the entry keys,
no template factories, and a `format_misc` method that records in the rendered
text whether the context carries a bibliography-data container. -/
def cexStyle : BaseStyle :=
  ⟨⟨⟨fun s _ => s⟩, ⟨fun es => es.map (fun e => e.key)⟩, ⟨fun es => es⟩, false, 2⟩,
    fun _ => none,
    fun t =>
      if t == "misc" then
        some (fun ctx =>
          match ctx.bib_data with
          | none => "no-bib-data"
          | some _ => "with-bib-data")
      else none⟩

/-- A single concrete entry of type `misc`. -/
def cexEntry : Entry := ⟨"alpha", "misc", []⟩

/-- A concrete container with one entry, whose `add_extra_citations` adds
nothing. -/
def cexBib : BibData := ⟨[("alpha", cexEntry)], "PRE", fun cs _ => cs⟩

/-- A style with neither template factories nor format methods. -/
def bareStyle : BaseStyle :=
  ⟨⟨⟨fun s _ => s⟩, ⟨fun es => es.map (fun e => e.key)⟩, ⟨fun es => es⟩, false, 2⟩,
    fun _ => none, fun _ => none⟩

/-- A style whose label strategy returns an empty label list regardless of the
entries, exercising the `zip` truncation. -/
def shortLabelStyle : BaseStyle :=
  ⟨⟨⟨fun s _ => s⟩, ⟨fun _ => []⟩, ⟨fun es => es⟩, false, 2⟩,
    fun _ => none,
    fun t => if t == "misc" then some (fun _ => "txt") else none⟩

/-- Concrete registries: no named plugins, with concrete category defaults. -/
def cexRegs : StyleRegistries :=
  ⟨⟨[], ⟨fun s _ => s⟩⟩, ⟨[], ⟨fun es => es.map (fun e => e.key)⟩⟩, ⟨[], ⟨fun es => es⟩⟩⟩

/-- Concrete registries with one registered plugin per category, named "reg". -/
def cexRegs2 : StyleRegistries :=
  ⟨⟨[("reg", ⟨fun s _ => s⟩)], ⟨fun s _ => s⟩⟩,
    ⟨[("reg", ⟨fun es => es.map (fun e => e.key)⟩)], ⟨fun es => es.map (fun e => e.key)⟩⟩,
    ⟨[("reg", ⟨fun es => es⟩)], ⟨fun es => es⟩⟩⟩

/-- Class-attribute defaults all `None`, as on `BaseStyle` itself. -/
def cexDefaults : StyleDefaults := ⟨none, none, none⟩

theorem mapExcept_ok_forall {α β ε : Type} {f : α → Except ε β} :
    ∀ {l : List α} {ys : List β}, mapExcept f l = Except.ok ys →
      ∀ x ∈ l, ∃ y, f x = Except.ok y := by
  intro l
  induction l with
  | nil =>
    intro ys h x hx
    simp at hx
  | cons a tl ih =>
    intro ys h x hx
    unfold mapExcept at h
    cases hfa : f a with
    | error e => rw [hfa] at h; simp at h
    | ok y =>
      rw [hfa] at h
      cases hrest : mapExcept f tl with
      | error e => rw [hrest] at h; simp at h
      | ok zs =>
        rcases List.mem_cons.mp hx with hx0 | hxmem
        · exact ⟨y, hx0 ▸ hfa⟩
        · exact ih hrest x hxmem

theorem format_entries_error_shape {self : BaseStyle} {entries : List Entry}
    {bib_data : Option BibData} {e : StyleError}
    (h : self.format_entries entries bib_data = Except.error e) :
    ∃ t, e = StyleError.unsupportedEntryType t := by
  rw [format_entries_unfold] at h
  rcases mapExcept_error_mem h with ⟨le, _, hle⟩
  exact ⟨le.2.type, format_entry_error_shape hle⟩

theorem find_plugin_error_shape {α : Type} {reg : Registry α} {o : Option String}
    {e : StyleError} (h : find_plugin reg o = Except.error e) :
    ∃ m, e = StyleError.pluginNotFound m := by
  cases o with
  | none => simp [find_plugin] at h
  | some nm =>
    simp only [find_plugin] at h
    cases hl : reg.plugins.lookup nm with
    | some p => rw [hl] at h; simp at h
    | none =>
      rw [hl] at h
      simp at h
      exact ⟨nm, h.symm⟩

theorem init_ok_inversion {regs : StyleRegistries} {dfl : StyleDefaults}
    {gt : String → Option (Entry → Template)} {fm : String → Option (Context → String)}
    {ls ns ss : Option String} {ab : Bool} {mc : Nat} {style : BaseStyle}
    (h : BaseStyle.init regs dfl gt fm ls ns ss ab mc = Except.ok style) :
    find_plugin regs.names (pyOr ns dfl.default_name_style) = Except.ok style.name_style ∧
    find_plugin regs.labels (pyOr ls dfl.default_label_style) = Except.ok style.label_style ∧
    find_plugin regs.sorting (pyOr ss dfl.default_sorting_style) =
      Except.ok style.sorting_style ∧
    style.abbreviate_names = ab ∧ style.min_crossrefs = mc := by
  unfold BaseStyle.init at h
  split at h
  next e heq => simp at h
  next nsv heq =>
    split at h
    next e heq2 => simp at h
    next lsv heq2 =>
      split at h
      next e heq3 => simp at h
      next ssv heq3 =>
        injection h with h2
        rw [← h2]
        exact ⟨heq, heq2, heq3, rfl, rfl⟩

theorem init_error_shape {regs : StyleRegistries} {dfl : StyleDefaults}
    {gt : String → Option (Entry → Template)} {fm : String → Option (Context → String)}
    {ls ns ss : Option String} {ab : Bool} {mc : Nat} {e : StyleError}
    (h : BaseStyle.init regs dfl gt fm ls ns ss ab mc = Except.error e) :
    ∃ m, e = StyleError.pluginNotFound m := by
  unfold BaseStyle.init at h
  split at h
  next e0 heq =>
    injection h with h2
    exact h2 ▸ find_plugin_error_shape heq
  next nsv heq =>
    split at h
    next e0 heq2 =>
      injection h with h2
      exact h2 ▸ find_plugin_error_shape heq2
    next lsv heq2 =>
      split at h
      next e0 heq3 =>
        injection h with h2
        exact h2 ▸ find_plugin_error_shape heq3
      next ssv heq3 => simp at h

theorem format_entry_run_eq (self : BaseStyle) (label : String) (entry : Entry)
    (bib_data : Option BibData) :
    self.format_entry_run label entry bib_data =
      (self.format_entry label entry bib_data, self, entry) := by
  unfold BaseStyle.format_entry_run BaseStyle.format_entry
  cases self.get_template entry.type with
  | some gt => rfl
  | none =>
    cases self.format_method entry.type with
    | some fm2 => rfl
    | none => rfl

theorem pyOr_empty_left (b : Option String) : pyOr (some "") b = b := rfl

theorem pyOr_none_left (b : Option String) : pyOr none b = b := rfl

/-! ### Claim theorems -/

/-- C1 counterexample: `format_bibliography` does NOT pass its `bib_data`
through to `format_entries` (line 67 calls `self.format_entries(entries)`
with the default `bib_data=None`). With a format method that records in the
rendered text whether the context carries a container, formatting via
`format_bibliography` with the non-`None` container `cexBib` yields
"no-bib-data", while the pass-through claimed by C1 would have produced the
text "with-bib-data" that `format_entry` yields when `cexBib` is passed
explicitly. -/
theorem format_bibliography_drops_bib_data_cex :
    (cexStyle.format_bibliography cexBib (some ["alpha"])).map
        (fun fb => fb.entries.map FormattedEntry.text) = Except.ok ["no-bib-data"] ∧
    (cexStyle.format_entry "alpha" cexEntry (some cexBib)).map FormattedEntry.text =
      Except.ok "with-bib-data" :=
  ⟨rfl, rfl⟩

/-- C1 (amended): every `FormattedEntry` in the output of
`format_bibliography` is produced by `format_entry` called with
`bib_data = none`, i.e. the context built for each entry formatted through
`format_bibliography` carries `None` as its bibliography-data container, not
the container passed to `format_bibliography`. -/
theorem format_bibliography_contexts_carry_none (self : BaseStyle) (bib_data : BibData)
    (citations : Option (List String)) (fb : FormattedBibliography)
    (hok : self.format_bibliography bib_data citations = Except.ok fb) :
    ∀ fe ∈ fb.entries, ∃ label entry,
      self.format_entry label entry none = Except.ok fe := by
  unfold BaseStyle.format_bibliography at hok
  split at hok
  next e heq => simp at hok
  next entries hres =>
    split at hok
    next e heq2 => simp at hok
    next fes hfe =>
      have hfb : fb.entries = fes := by
        injection hok with h2
        rw [← h2]
      rw [hfb]
      intro fe hmem
      rw [format_entries_unfold] at hfe
      rcases mapExcept_ok_mem hfe fe hmem with ⟨le, _, hfele⟩
      exact ⟨le.1, le.2, hfele⟩

/-- C1 witness: evaluating the amended theorem at the concrete instance and
its single output entry. -/
theorem format_bibliography_contexts_carry_none_witness :
    ∃ label entry, cexStyle.format_entry label entry none =
      Except.ok ⟨"alpha", "no-bib-data", "alpha"⟩ :=
  format_bibliography_contexts_carry_none cexStyle cexBib (some ["alpha"])
    ⟨[⟨"alpha", "no-bib-data", "alpha"⟩], cexStyle, "PRE"⟩ rfl
    ⟨"alpha", "no-bib-data", "alpha"⟩ (by decide)

/-- C2: `format_entry` resolves the renderer with template-factory
precedence: a present `get_<type>_template` attribute is used (rendering the
context built from the entry and the given `bib_data`); only if it is absent
is a present `format_<type>` attribute used; and when neither exists the call
fails with the `UnsupportedEntryType`-kind error and yields no
`FormattedEntry`. -/
theorem format_entry_dispatch_precedence (self : BaseStyle) (label : String)
    (entry : Entry) (bib_data : Option BibData) :
    (∀ gt, self.get_template entry.type = some gt →
      self.format_entry label entry bib_data =
        Except.ok ⟨entry.key, (gt entry).format_data (self.make_context entry bib_data),
          label⟩) ∧
    (self.get_template entry.type = none →
      ∀ fm2, self.format_method entry.type = some fm2 →
        self.format_entry label entry bib_data =
          Except.ok ⟨entry.key, fm2 (self.make_context entry bib_data), label⟩) ∧
    (self.get_template entry.type = none → self.format_method entry.type = none →
      self.format_entry label entry bib_data =
        Except.error (StyleError.unsupportedEntryType entry.type)) := by
  refine ⟨?_, ?_, ?_⟩
  · intro gt hgt
    unfold BaseStyle.format_entry
    rw [hgt]
  · intro hgt fm2 hfm
    unfold BaseStyle.format_entry
    rw [hgt, hfm]
  · intro hgt hfm
    unfold BaseStyle.format_entry
    rw [hgt, hfm]

/-- C2 witness: an entry of type `misc` with neither a template factory nor a
format method fails with the `UnsupportedEntryType`-kind error. -/
theorem format_entry_dispatch_precedence_witness :
    bareStyle.format_entry "L" cexEntry none =
      Except.error (StyleError.unsupportedEntryType "misc") :=
  (format_entry_dispatch_precedence bareStyle "L" cexEntry none).2.2 rfl rfl

/-- C8: `format_entry` and `format_entries` mutate nothing: their
state-passing translations (the bodies contain no assignment to the adapter,
the entries or any other location) return the adapter and the inputs
unchanged, and compute exactly the pure results, so the configuration chosen
at construction is unchanged by every formatting call. -/
theorem format_calls_preserve_state (self : BaseStyle) (entries : List Entry)
    (bib_data : Option BibData) (label : String) (entry : Entry) :
    (self.format_entries_run entries bib_data).2.1 = self ∧
    (self.format_entries_run entries bib_data).2.2 = entries ∧
    (self.format_entries_run entries bib_data).1 = self.format_entries entries bib_data ∧
    (self.format_entry_run label entry bib_data).2.1 = self ∧
    (self.format_entry_run label entry bib_data).2.2 = entry ∧
    (self.format_entry_run label entry bib_data).1 = self.format_entry label entry bib_data := by
  refine ⟨rfl, rfl, rfl, ?_, ?_, ?_⟩ <;> rw [format_entry_run_eq]

/-- C10: a falsy style identifier (the empty string) passed as any of the
three style arguments is treated identically to omitting the argument: the
`identifier or default` expression discards the falsy identifier before any
plugin lookup, so the empty string is never itself looked up and the
component default is resolved instead. -/
theorem init_empty_string_identifier_like_omitted (regs : StyleRegistries)
    (dfl : StyleDefaults) (gt : String → Option (Entry → Template))
    (fm : String → Option (Context → String)) (ls ns ss : Option String)
    (ab : Bool) (mc : Nat) :
    BaseStyle.init regs dfl gt fm (some "") ns ss ab mc =
      BaseStyle.init regs dfl gt fm none ns ss ab mc ∧
    BaseStyle.init regs dfl gt fm ls (some "") ss ab mc =
      BaseStyle.init regs dfl gt fm ls none ss ab mc ∧
    BaseStyle.init regs dfl gt fm ls ns (some "") ab mc =
      BaseStyle.init regs dfl gt fm ls ns none ab mc :=
  ⟨rfl, rfl, rfl⟩

/-- C4: `format_entries` sorts first, computes labels of the sorted sequence,
and pairs positionally: when the label strategy returns as many labels as
sorted entries, the i-th produced `FormattedEntry` is the result of
formatting the i-th sorted entry with the i-th label, carries that label, and
carries the i-th sorted entry's key. -/
theorem format_entries_positional_pairing (self : BaseStyle) (entries : List Entry)
    (bib_data : Option BibData) (fes : List FormattedEntry)
    (hlab : (self.format_labels (self.sort entries)).length = (self.sort entries).length)
    (hok : self.format_entries entries bib_data = Except.ok fes) :
    fes.length = (self.sort entries).length ∧
    ∀ i (h1 : i < fes.length)
      (h2 : i < (self.format_labels (self.sort entries)).length)
      (h3 : i < (self.sort entries).length),
      self.format_entry ((self.format_labels (self.sort entries)).get ⟨i, h2⟩)
          ((self.sort entries).get ⟨i, h3⟩) bib_data = Except.ok (fes.get ⟨i, h1⟩) ∧
      (fes.get ⟨i, h1⟩).label = (self.format_labels (self.sort entries)).get ⟨i, h2⟩ ∧
      (fes.get ⟨i, h1⟩).key = ((self.sort entries).get ⟨i, h3⟩).key := by
  rw [format_entries_unfold] at hok
  have hlen : fes.length = (self.sort entries).length := by
    rw [mapExcept_ok_length hok, List.length_zip, hlab, Nat.min_self]
  refine ⟨hlen, ?_⟩
  intro i h1 h2 h3
  have hzi : i < ((self.format_labels (self.sort entries)).zip (self.sort entries)).length := by
    rw [List.length_zip]
    omega
  have hget := mapExcept_ok_get hok i hzi h1
  have hzget : ((self.format_labels (self.sort entries)).zip (self.sort entries)).get ⟨i, hzi⟩ =
      ((self.format_labels (self.sort entries)).get ⟨i, h2⟩,
        (self.sort entries).get ⟨i, h3⟩) := by
    simp [List.getElem_zip]
  rw [hzget] at hget
  rcases format_entry_ok_fields hget with ⟨hk, hl⟩
  exact ⟨hget, hl, hk⟩

/-- C4 witness: evaluating the theorem at the concrete one-entry instance and
index 0. -/
theorem format_entries_positional_pairing_witness :
    ([(⟨"alpha", "no-bib-data", "alpha"⟩ : FormattedEntry)]).length =
      (cexStyle.sort [cexEntry]).length ∧
    (cexStyle.format_entry "alpha" cexEntry none =
        Except.ok ⟨"alpha", "no-bib-data", "alpha"⟩ ∧
      (⟨"alpha", "no-bib-data", "alpha"⟩ : FormattedEntry).label = "alpha" ∧
      (⟨"alpha", "no-bib-data", "alpha"⟩ : FormattedEntry).key = cexEntry.key) :=
  ⟨(format_entries_positional_pairing cexStyle [cexEntry] none
      [⟨"alpha", "no-bib-data", "alpha"⟩] rfl rfl).1,
    (format_entries_positional_pairing cexStyle [cexEntry] none
      [⟨"alpha", "no-bib-data", "alpha"⟩] rfl rfl).2 0 (by decide) (by decide) (by decide)⟩

/-- C9: a label list shorter or longer than the sorted entries raises no
error: `zip` silently truncates, so (when every sorted entry's type has a
renderer) `format_entries` yields exactly
`min (number of labels) (number of sorted entries)` formatted entries. -/
theorem format_entries_zip_truncates (self : BaseStyle) (entries : List Entry)
    (bib_data : Option BibData)
    (hhandlers : ∀ e ∈ self.sort entries,
      (self.get_template e.type).isSome ∨ (self.format_method e.type).isSome) :
    ∃ fes, self.format_entries entries bib_data = Except.ok fes ∧
      fes.length =
        min (self.format_labels (self.sort entries)).length (self.sort entries).length := by
  rw [format_entries_unfold]
  have htot : ∀ le ∈ (self.format_labels (self.sort entries)).zip (self.sort entries),
      ∃ fe, self.format_entry le.1 le.2 bib_data = Except.ok fe := by
    intro le hle
    exact format_entry_total (hhandlers le.2 (List.of_mem_zip hle).2)
  rcases mapExcept_total htot with ⟨fes, hfes⟩
  refine ⟨fes, hfes, ?_⟩
  rw [mapExcept_ok_length hfes, List.length_zip]

/-- C9 witness: with an empty label list over one entry, `format_entries`
succeeds and yields `min 0 1 = 0` formatted entries. -/
theorem format_entries_zip_truncates_witness :
    ∃ fes, shortLabelStyle.format_entries [cexEntry] none = Except.ok fes ∧
      fes.length =
        min (shortLabelStyle.format_labels (shortLabelStyle.sort [cexEntry])).length
          (shortLabelStyle.sort [cexEntry]).length :=
  format_entries_zip_truncates shortLabelStyle [cexEntry] none (by decide)

/-- C3: under the collaborator contracts (the container maps each key to the
entry bearing that key, the sorting strategy permutes its input, the label
strategy is length-preserving, and `add_extra_citations` returns a
duplicate-free list), a successful `format_bibliography` emits exactly one
`FormattedEntry` per key of the crossref-extended citation list, with no
duplicate keys, and the output key order is exactly the key order of the
sorted entry sequence produced by the sorting strategy. -/
theorem format_bibliography_keys_exact (self : BaseStyle) (bib_data : BibData)
    (citations : Option (List String)) (fb : FormattedBibliography)
    (hok : self.format_bibliography bib_data citations = Except.ok fb)
    (hcoh : ∀ p ∈ bib_data.entries, p.2.key = p.1)
    (hsort : ∀ l, List.Perm (self.sort l) l)
    (hlab : ∀ l, (self.format_labels l).length = l.length)
    (hnodup : (self.cited_keys bib_data citations).Nodup) :
    List.Perm (fb.entries.map FormattedEntry.key) (self.cited_keys bib_data citations) ∧
    (fb.entries.map FormattedEntry.key).Nodup ∧
    ∃ entries, self.resolve_entries bib_data citations = Except.ok entries ∧
      fb.entries.map FormattedEntry.key = (self.sort entries).map Entry.key := by
  rcases format_bibliography_keys hok hcoh hsort hlab with ⟨hperm, hrest⟩
  exact ⟨hperm, (List.Perm.nodup_iff hperm).mpr hnodup, hrest⟩

/-- C3 witness: evaluating the theorem at the concrete one-entry instance. -/
theorem format_bibliography_keys_exact_witness :
    List.Perm
      ((FormattedBibliography.mk [⟨"alpha", "no-bib-data", "alpha"⟩] cexStyle
        "PRE").entries.map FormattedEntry.key)
      (cexStyle.cited_keys cexBib (some ["alpha"])) ∧
    ((FormattedBibliography.mk [⟨"alpha", "no-bib-data", "alpha"⟩] cexStyle
      "PRE").entries.map FormattedEntry.key).Nodup ∧
    ∃ entries, cexStyle.resolve_entries cexBib (some ["alpha"]) = Except.ok entries ∧
      (FormattedBibliography.mk [⟨"alpha", "no-bib-data", "alpha"⟩] cexStyle
        "PRE").entries.map FormattedEntry.key = (cexStyle.sort entries).map Entry.key :=
  format_bibliography_keys_exact cexStyle cexBib (some ["alpha"])
    ⟨[⟨"alpha", "no-bib-data", "alpha"⟩], cexStyle, "PRE"⟩ rfl (by decide)
    (fun l => List.Perm.refl l) (fun l => List.length_map l _) (by decide)

theorem format_bibliography_ok_step {self : BaseStyle} {bib_data : BibData}
    {citations : Option (List String)} {entries : List Entry}
    (hres : self.resolve_entries bib_data citations = Except.ok entries) :
    self.format_bibliography bib_data citations =
      match self.format_entries entries none with
      | Except.error e => Except.error e
      | Except.ok formatted_entries =>
        Except.ok ⟨formatted_entries, self, bib_data.preamble⟩ := by
  unfold BaseStyle.format_bibliography
  rw [hres]

/-- C6: if some key of the crossref-extended citation list is absent from the
container, `format_bibliography` fails with the `KeyError`-kind error of such
a key (during key resolution, before any formatted output is produced); if
every key is present, no `KeyError`-kind failure occurs. -/
theorem format_bibliography_missing_key (self : BaseStyle) (bib_data : BibData)
    (citations : Option (List String)) :
    ((∃ k ∈ self.cited_keys bib_data citations, bib_data.find k = none) →
      ∃ m, m ∈ self.cited_keys bib_data citations ∧ bib_data.find m = none ∧
        self.format_bibliography bib_data citations =
          Except.error (StyleError.keyError m)) ∧
    ((∀ k ∈ self.cited_keys bib_data citations, (bib_data.find k).isSome) →
      ∀ m, self.format_bibliography bib_data citations ≠
        Except.error (StyleError.keyError m)) := by
  constructor
  · rintro ⟨k, hk, hnone⟩
    cases hres : self.resolve_entries bib_data citations with
    | ok entries =>
      exfalso
      have hforall := mapExcept_ok_forall (by rw [← BaseStyle.resolve_entries]; exact hres) k hk
      rcases hforall with ⟨y, hy⟩
      rw [hnone] at hy
      simp at hy
    | error e =>
      rcases resolve_entries_error_shape hres with ⟨k0, hk0, hfind0, he⟩
      refine ⟨k0, hk0, hfind0, ?_⟩
      unfold BaseStyle.format_bibliography
      rw [hres, he]
  · intro hall m hcontra
    rcases resolve_entries_total hall with ⟨entries, hres⟩
    rw [format_bibliography_ok_step hres] at hcontra
    cases hfe : self.format_entries entries none with
    | ok fes =>
      rw [hfe] at hcontra
      simp at hcontra
    | error e =>
      rw [hfe] at hcontra
      simp at hcontra
      rcases format_entries_error_shape hfe with ⟨t, ht⟩
      rw [ht] at hcontra
      simp at hcontra

/-- C6 witness: requesting the absent key "ghost" fails with its
`KeyError`-kind error. -/
theorem format_bibliography_missing_key_witness :
    ∃ m, m ∈ cexStyle.cited_keys cexBib (some ["ghost"]) ∧ cexBib.find m = none ∧
      cexStyle.format_bibliography cexBib (some ["ghost"]) =
        Except.error (StyleError.keyError m) :=
  (format_bibliography_missing_key cexStyle cexBib (some ["ghost"])).1
    ⟨"ghost", by decide, rfl⟩

/-- C7: omitting `citations` behaves exactly like passing the list of all
keys of the container in insertion order; consequently (under the
collaborator contracts, with `add_extra_citations` keeping the given keys)
every entry present in the container appears formatted in a successful
output. -/
theorem format_bibliography_defaults_to_all_keys (self : BaseStyle) (bib_data : BibData) :
    self.format_bibliography bib_data none =
      self.format_bibliography bib_data (some bib_data.keys) ∧
    ∀ fb, self.format_bibliography bib_data none = Except.ok fb →
      (∀ p ∈ bib_data.entries, p.2.key = p.1) →
      (∀ l, List.Perm (self.sort l) l) →
      (∀ l, (self.format_labels l).length = l.length) →
      (∀ k ∈ bib_data.keys,
        k ∈ bib_data.add_extra_citations bib_data.keys self.min_crossrefs) →
      ∀ k ∈ bib_data.keys, ∃ fe, fe ∈ fb.entries ∧ fe.key = k := by
  constructor
  · rfl
  · intro fb hok hcoh hsort hlab hkeep k hk
    rcases format_bibliography_keys hok hcoh hsort hlab with ⟨hperm, -⟩
    have hkc : k ∈ self.cited_keys bib_data none := hkeep k hk
    have hmem : k ∈ fb.entries.map FormattedEntry.key := hperm.mem_iff.mpr hkc
    rcases List.mem_map.mp hmem with ⟨fe, hfe, hkey⟩
    exact ⟨fe, hfe, hkey⟩

/-- C7 witness: evaluating the theorem at the concrete one-entry instance. -/
theorem format_bibliography_defaults_to_all_keys_witness :
    ∃ fe, fe ∈ (FormattedBibliography.mk [⟨"alpha", "no-bib-data", "alpha"⟩] cexStyle
      "PRE").entries ∧ fe.key = "alpha" :=
  (format_bibliography_defaults_to_all_keys cexStyle cexBib).2
    ⟨[⟨"alpha", "no-bib-data", "alpha"⟩], cexStyle, "PRE"⟩ rfl (by decide)
    (fun l => List.Perm.refl l) (fun l => List.length_map l _) (by decide)
    "alpha" (by decide)

/-- C5: a truthy style identifier with no registered implementation in its
category makes construction fail with a `PluginNotFound`-kind error (the
failure is the constructor's return value, so it surfaces before any
formatting call can be made on a style instance); and with all three
identifiers omitted, each component is resolved by looking up the
component-specific default instead. -/
theorem init_unknown_identifier_fails (regs : StyleRegistries) (dfl : StyleDefaults)
    (gt : String → Option (Entry → Template)) (fm : String → Option (Context → String))
    (ls ns ss : Option String) (ab : Bool) (mc : Nat) :
    (((∃ n, ns = some n ∧ pyTruthy ns = true ∧ regs.names.plugins.lookup n = none) ∨
      (∃ n, ls = some n ∧ pyTruthy ls = true ∧ regs.labels.plugins.lookup n = none) ∨
      (∃ n, ss = some n ∧ pyTruthy ss = true ∧ regs.sorting.plugins.lookup n = none)) →
      ∃ m, BaseStyle.init regs dfl gt fm ls ns ss ab mc =
        Except.error (StyleError.pluginNotFound m)) ∧
    (∀ style, BaseStyle.init regs dfl gt fm none none none ab mc = Except.ok style →
      find_plugin regs.names dfl.default_name_style = Except.ok style.name_style ∧
      find_plugin regs.labels dfl.default_label_style = Except.ok style.label_style ∧
      find_plugin regs.sorting dfl.default_sorting_style = Except.ok style.sorting_style) := by
  constructor
  · intro hbad
    cases hres : BaseStyle.init regs dfl gt fm ls ns ss ab mc with
    | error e =>
      rcases init_error_shape hres with ⟨m, hm⟩
      exact ⟨m, by rw [hm]⟩
    | ok style =>
      exfalso
      rcases init_ok_inversion hres with ⟨hn, hl, hs, -, -⟩
      rcases hbad with ⟨n, hns, htr, hlook⟩ | ⟨n, hns, htr, hlook⟩ | ⟨n, hns, htr, hlook⟩
      · have hpy : pyOr ns dfl.default_name_style = some n := by
          unfold pyOr
          rw [htr, if_pos rfl, hns]
        rw [hpy] at hn
        simp [find_plugin, hlook] at hn
      · have hpy : pyOr ls dfl.default_label_style = some n := by
          unfold pyOr
          rw [htr, if_pos rfl, hns]
        rw [hpy] at hl
        simp [find_plugin, hlook] at hl
      · have hpy : pyOr ss dfl.default_sorting_style = some n := by
          unfold pyOr
          rw [htr, if_pos rfl, hns]
        rw [hpy] at hs
        simp [find_plugin, hlook] at hs
  · intro style hok
    rcases init_ok_inversion hok with ⟨hn, hl, hs, -, -⟩
    exact ⟨hn, hl, hs⟩

/-- C5 witness: the identifier "doesnotexist", unregistered in the label
category, makes construction fail with a `PluginNotFound`-kind error. -/
theorem init_unknown_identifier_fails_witness :
    ∃ m, BaseStyle.init cexRegs2 cexDefaults (fun _ => none) (fun _ => none)
        (some "doesnotexist") none none false 2 =
      Except.error (StyleError.pluginNotFound m) :=
  (init_unknown_identifier_fails cexRegs2 cexDefaults (fun _ => none) (fun _ => none)
      (some "doesnotexist") none none false 2).1
    (Or.inr (Or.inl ⟨"doesnotexist", rfl, by decide, rfl⟩))
